import Mathlib

/-!
lit-tui chat orchestration: shallow embedding and verification.

This file embeds the chat-turn orchestration of the lit-tui terminal chat
client (`src/lit_tui/screens/chat.py`, `src/lit_tui/widgets/message_list.py`)
in Lean 4 and proves properties of it.

Modelling conventions:
* The Textual widget tree, CSS, focus handling, scrolling and logging are
  visual concerns with no bearing on the verified properties; they are elided.
* Collaborator services outside the shown files (Ollama HTTP client, MCP
  client, storage, prompt composer) are modelled as parameters: the outcome of
  each awaited collaborator call is an explicit argument of the embedded
  function, so every theorem quantifies over all collaborator behaviours.
* Python string truthiness (`if chunk:`, `if event.value.strip():`) becomes an
  emptiness test; `str.strip()` is embedded as `pyStrip`.
* Wall-clock timestamps are passed as an explicit `now : Nat` argument.
-/

namespace LitTui

/-- A widget in the `MessageList` display, from `MessageWidget.__init__`
(`widgets/message_list.py`): a role, the displayed content, and a timestamp
(taken at creation time; embedded as a `Nat`). -/
structure MessageWidget where
  role : String
  content : String
  timestamp : Nat
deriving DecidableEq

/-- Modelled from the spec: `ChatMessage` (`services/storage.py`, not among the
shown files) — a transcript message with `role ∈ {user, assistant, system}`,
`content`, and an optional `model` identifier, as constructed at
`screens/chat.py` lines 213 and 355 (`ChatMessage(role=..., content=...,
model=self.current_model)`). The wall-clock timestamp field is elided. -/
structure ChatMessage where
  role : String
  content : String
  model : Option String
deriving DecidableEq

/-- Modelled from the spec: `Session` (`services/storage.py`, not among the
shown files) — `{id, ordered sequence of Message, associated model identifier,
title}`; `add_message` appends to the ordered sequence. -/
structure Session where
  session_id : String
  title : String
  model : Option String
  messages : List ChatMessage
deriving DecidableEq

/-- An MCP tool descriptor (`{name, description}` per the spec; used at
`screens/chat.py` line 260 as `tool.name` / `tool.description`). -/
structure MCPTool where
  name : String
  description : String
deriving DecidableEq

/-- One `{"role": ..., "content": ...}` dictionary of the prompt sent to
Ollama, built at `screens/chat.py` lines 244-248. -/
structure PromptMsg where
  role : String
  content : String
deriving DecidableEq

/-- The mutable state of `ChatScreen` relevant to the claims:
`is_generating`, `current_model`, `current_session` (`screens/chat.py`
lines 89-91), the `MessageList` display, the stream of `self.notify` calls,
the log of `storage_service.save_session` calls (each entry the session
snapshot passed to it), and the value passed to
`storage_service.save_last_model`. -/
structure ChatState where
  is_generating : Bool
  current_model : Option String
  current_session : Option Session
  display : List MessageWidget
  notices : List String
  save_log : List Session
  last_model_saved : Option String
deriving DecidableEq

/-! ## MessageList operations (`widgets/message_list.py`) -/

/-- Embeds `MessageList.add_message` (lines 111-126): appends a new
`MessageWidget` to `self.messages`. -/
def add_message (msgs : List MessageWidget) (role content : String)
    (timestamp : Nat) : List MessageWidget :=
  msgs ++ [{ role := role, content := content, timestamp := timestamp }]

/-- Embeds `MessageList.clear` (lines 128-139): removes all messages. -/
def clear_messages (_msgs : List MessageWidget) : List MessageWidget := []

/-- Embeds `MessageList.update_last_message` (lines 145-151): `if self.messages:`
replace the content of `self.messages[-1]`, else do nothing. -/
def update_last_message (msgs : List MessageWidget) (content : String) :
    List MessageWidget :=
  match msgs.getLast? with
  | none => msgs
  | some last => msgs.dropLast ++ [{ last with content := content }]

/-- Modelled from the spec: `MessageList.add_chunk_to_last_message`, called by
the streaming callback at `screens/chat.py` line 302, is not among the shown
files. Per the spec, each produced text chunk is appended "to that message's
displayed content", the streaming message's content being "replaced wholesale
on each chunk": the last message's content is replaced by its previous content
extended with the chunk (a no-op on an empty list, like
`update_last_message`). -/
def add_chunk_to_last_message (msgs : List MessageWidget) (chunk : String) :
    List MessageWidget :=
  match msgs.getLast? with
  | none => msgs
  | some last => update_last_message msgs (last.content ++ chunk)

/-- The content of the most recently added display message, if any. -/
def lastContent (msgs : List MessageWidget) : Option String :=
  msgs.getLast?.map (fun m => m.content)

/-! ## Python `str.strip` -/

/-- Whitespace for Python `str.strip()` (the ASCII whitespace characters). -/
def isPySpace (c : Char) : Bool :=
  c == ' ' || c == '\t' || c == '\n' || c == '\x0b' || c == '\x0c' || c == '\r'

/-- Python `str.strip()`: removes leading and trailing whitespace. -/
def pyStrip (s : String) : String :=
  String.mk (((s.toList.dropWhile isPySpace).reverse.dropWhile isPySpace).reverse)

/-! ## Model Capability Gate (`services/model_compatibility.py`) -/

/-- Modelled from the spec: `supports_tools` (`services/model_compatibility.py`,
not among the shown files) — the Model Capability Gate is a pure function
`modelName → bool` "backed by a static allow/deny table (e.g., deny-list by
substring match for certain model families)"; the denied families named by the
screen's own diagnostic (`screens/chat.py` line 324) are codellama (all
versions), codegemma and starcoder. -/
def supports_tools (model : String) : Bool :=
  !(["codellama", "codegemma", "starcoder"].any
      (fun fam => decide (fam.toList <:+: model.toList)))

/-- Modelled from the spec: `suggest_alternative_model`
(`services/model_compatibility.py`, not among the shown files) — "a companion
function suggests a replacement from the currently available model list by
simple heuristic (first compatible match)". -/
def suggest_alternative_model (_current : String) (available : List String) :
    Option String :=
  available.find? (fun m => supports_tools m)

/-! ## Fixed diagnostic texts (`screens/chat.py`) -/

/-- The no-model diagnostic of `ChatScreen._handle_no_model`
(lines 368-375). -/
def no_model_message : String :=
  "No Ollama model available. Please:\n1. Make sure Ollama is running\n2. Pull a model (e.g., `ollama pull llama2`)\n3. Restart lit-tui"

/-- The compatibility-error message assembled at `screens/chat.py`
lines 317-326: base diagnostic, a suggestion block only when
`suggest_alternative_model` returned a (truthy) model, and a closing hint. -/
def compat_error_message (model : String) (tools_count : Nat)
    (suggested : Option String) : String :=
  let base :=
    "❌ **Model Compatibility Issue**\n\n" ++
    "The model `" ++ model ++ "` does not support tool calling. " ++
    "I have " ++ toString tools_count ++
    " tools available (file operations, etc.) but this model cannot use them.\n\n"
  let withSuggestion :=
    match suggested with
    | some s =>
        base ++ "💡 **Suggestion**: Switch to `" ++ s ++
        "` or another compatible model.\n\n" ++
        "**Compatible models include**: qwen3:latest, llama3.1:latest, mistral:latest\n" ++
        "**Incompatible models**: codellama (all versions), codegemma, starcoder\n\n"
    | none => base
  withSuggestion ++
    "You can change the model using the sidebar or try your request with a different model."

/-! ## The streaming loop (`screens/chat.py` lines 296-351) -/

/-- Concatenation of the streamed chunks, the value accumulated by
`response_content += chunk`. -/
def joinChunks : List String → String
  | [] => ""
  | c :: cs => c ++ joinChunks cs

/-- Embeds `unified_stream_callback` (lines 299-302): `if chunk:` append it to the
last displayed message. -/
def unified_stream_callback (msgs : List MessageWidget) (chunk : String) :
    List MessageWidget :=
  if chunk = "" then msgs else add_chunk_to_last_message msgs chunk

/-- The `async for chunk in ... chat_completion(...)` loop (lines 343-351):
for each chunk, `response_content += chunk`, and `if chunk:` the unified
streaming callback updates the display. Returns the accumulated
`response_content` together with the display state. -/
def stream_loop : List String → String → List MessageWidget →
    String × List MessageWidget
  | [], response_content, msgs => (response_content, msgs)
  | chunk :: rest, response_content, msgs =>
      let rc := response_content ++ chunk
      let msgs2 := if chunk = "" then msgs else unified_stream_callback msgs chunk
      stream_loop rest rc msgs2

/-! ## Prompt assembly (`screens/chat.py` lines 240-290) -/

/-- Lines 241-248: the session transcript mapped to `{role, content}`
pairs. -/
def to_ollama (session_messages : List ChatMessage) : List PromptMsg :=
  session_messages.map (fun m => { role := m.role, content := m.content })

/-- Line 255: `any(msg.get("role") == "system" for msg in messages)`. -/
def has_system_message (messages : List PromptMsg) : Bool :=
  messages.any (fun m => m.role == "system")

/-- Lines 253-290: when no system message exists yet, invoke the Prompt
Composer (`compose`, a parameter standing for
`PromptComposer.compose_system_prompt`, whose module is not among the shown
files) exactly once and `messages.insert(0, system_msg)`; otherwise leave the
derived messages unchanged. The returned flag records whether the composer was
invoked. -/
def build_prompt (compose : String → List MCPTool → List PromptMsg → String)
    (session_messages : List ChatMessage) (message : String)
    (available_tools : List MCPTool) : List PromptMsg × Bool :=
  let messages := to_ollama session_messages
  if has_system_message messages then (messages, false)
  else
    ({ role := "system", content := compose message available_tools messages }
       :: messages, true)

/-! ## The generate turn (`screens/chat.py` lines 228-366)

Each awaited collaborator call inside `generate_response` can either succeed
or raise; a `GenEvent` records which of these fallible steps, if any, raised,
together with the data the succeeding steps produced. -/

/-- Outcome of the collaborator calls awaited inside `generate_response`:
* `streamed chunks` — every await succeeded and the generation source produced
  the given text chunks;
* `composeError e` — prompt composition (lines 262-267) raised `e`, before the
  empty assistant message was opened;
* `streamError partialChunks e` — the stream raised `e` after producing
  `partialChunks` (only meaningful when the capability gate did not block,
  since a blocked turn never reaches the stream);
* `persistError chunks e` — the stream completed with `chunks` but
  `save_session` (line 361) raised `e` (only meaningful when a save was
  attempted, i.e. a session exists and the response is non-empty). -/
inductive GenEvent where
  | streamed (chunks : List String)
  | composeError (e : String)
  | streamError (partialChunks : List String) (e : String)
  | persistError (chunks : List String) (e : String)
deriving DecidableEq

/-- Lines 304-309: the tools branch is taken and the capability gate denies
the model. -/
def gate_blocks (available_tools : List MCPTool) (model : String) : Bool :=
  !available_tools.isEmpty && !supports_tools model

/-- Lines 305-330: the capability gate denied the model — the in-progress
(empty) assistant message just opened at line 296 is replaced with the
compatibility-error message and `generate_response` returns without calling
the model. -/
def blocked_update (st : ChatState) (available_tools : List MCPTool)
    (available_model_names : List String) (model : String) (now : Nat) :
    ChatState :=
  let d0 := add_message st.display "assistant" "" now
  let suggested := suggest_alternative_model model available_model_names
  let msg := compat_error_message model available_tools.length suggested
  { st with display := update_last_message d0 msg }

/-- Lines 296, 340-361: open an empty assistant message, run the streaming
loop, and on completion — `if self.current_session and response_content:` —
append the finished assistant `ChatMessage` to the session and save it
(`saveOk = false` embeds the save call raising after the in-memory append
succeeded, so no `save_log` entry is made). -/
def finish_stream (st : ChatState) (model : String) (chunks : List String)
    (now : Nat) (saveOk : Bool) : ChatState :=
  let d0 := add_message st.display "assistant" "" now
  let result := stream_loop chunks "" d0
  match st.current_session with
  | some session =>
      if result.1 = "" then { st with display := result.2 }
      else
        let session2 : Session :=
          { session with messages :=
              session.messages ++
                [({ role := "assistant", content := result.1,
                    model := some model } : ChatMessage)] }
        if saveOk then
          { st with display := result.2, current_session := some session2,
                    save_log := st.save_log ++ [session2] }
        else
          { st with display := result.2, current_session := some session2 }
  | none => { st with display := result.2 }

/-- Embeds `ChatScreen.generate_response` (lines 228-366). In order: if no model is
configured, `_handle_no_model` appends the fixed diagnostic and returns; a
failure raised while composing the prompt is caught by the `except` clause at
lines 363-366, which appends an assistant message `"Error: {e}"`; otherwise an
empty assistant message is opened, the capability gate is checked when tools
are available, and the stream runs — the tool-processor branch (lines
332-339) and the plain branch (lines 340-351) both feed the unified streaming
callback, so both are embedded by the chunk list of the event. A failure
raised during streaming or persistence is likewise caught and rendered as an
appended assistant message `"Error: {e}"`. The prompt itself (`build_prompt`)
only parameterises the collaborator calls and does not affect the screen
state. `generate_response` never touches `is_generating`. -/
def generate_response (st : ChatState) (available_tools : List MCPTool)
    (available_model_names : List String) (now : Nat) (ev : GenEvent) :
    ChatState :=
  match st.current_model with
  | none =>
      { st with display := add_message st.display "assistant" no_model_message now }
  | some model =>
      match ev with
      | .composeError e =>
          { st with display :=
              add_message st.display "assistant" ("Error: " ++ e) now }
      | .streamed chunks =>
          if gate_blocks available_tools model then
            blocked_update st available_tools available_model_names model now
          else
            finish_stream st model chunks now true
      | .streamError partialChunks e =>
          if gate_blocks available_tools model then
            blocked_update st available_tools available_model_names model now
          else
            let d0 := add_message st.display "assistant" "" now
            let d1 := (stream_loop partialChunks "" d0).2
            { st with display := add_message d1 "assistant" ("Error: " ++ e) now }
      | .persistError chunks e =>
          if gate_blocks available_tools model then
            blocked_update st available_tools available_model_names model now
          else
            let st2 := finish_stream st model chunks now false
            { st2 with display :=
                add_message st2.display "assistant" ("Error: " ++ e) now }

/-! ## Message submission (`screens/chat.py` lines 181-226) -/

/-- Outcome of the collaborator calls awaited inside `send_message`:
`ok` — the save at line 215 succeeded and generation ran with the given
`GenEvent`; `saveError e` — the save raised `e` after the in-memory
`session.add_message` succeeded, so the `except` clause at lines 221-223
notifies `"Error: {e}"` and generation never starts. -/
inductive SendEvent where
  | ok (gen : GenEvent)
  | saveError (e : String)
deriving DecidableEq

/-- Embeds `ChatScreen.send_message` (lines 197-226): `if self.is_generating:
return`; otherwise set the flag, add the user message to the display, append
it to the session and save (`if self.current_session:`), then run
`generate_response` (scheduled as a worker; its effects land after
`send_message`'s `finally` clause has already reset the flag — the net state
is the same since `generate_response` never reads `is_generating`). The
`finally` clause resets `is_generating` on every path. -/
def send_message (st : ChatState) (available_tools : List MCPTool)
    (available_model_names : List String) (message : String) (now : Nat)
    (ev : SendEvent) : ChatState :=
  if st.is_generating then st
  else
    let stGen := { st with is_generating := true }
    let st1 := { stGen with display := add_message stGen.display "user" message now }
    match ev with
    | .saveError e =>
        let st2 :=
          match st1.current_session with
          | some session =>
              let session2 : Session :=
                { session with messages :=
                    session.messages ++
                      [({ role := "user", content := message,
                          model := st.current_model } : ChatMessage)] }
              { st1 with current_session := some session2 }
          | none => st1
        { st2 with notices := st2.notices ++ ["Error: " ++ e],
                   is_generating := false }
    | .ok gen =>
        let st2 :=
          match st1.current_session with
          | some session =>
              let session2 : Session :=
                { session with messages :=
                    session.messages ++
                      [({ role := "user", content := message,
                          model := st.current_model } : ChatMessage)] }
              { st1 with current_session := some session2,
                         save_log := st1.save_log ++ [session2] }
          | none => st1
        let st3 := generate_response st2 available_tools available_model_names now gen
        { st3 with is_generating := false }

/-- Embeds `ChatScreen.on_input_submitted` (lines 181-186): `if not
self.is_generating and event.value.strip():` send the stripped value. -/
def on_input_submitted (st : ChatState) (available_tools : List MCPTool)
    (available_model_names : List String) (value : String) (now : Nat)
    (ev : SendEvent) : ChatState :=
  if !st.is_generating && !(pyStrip value == "") then
    send_message st available_tools available_model_names (pyStrip value) now ev
  else st

/-- Embeds `ChatScreen.on_send_button_pressed` (lines 188-195): the same guard over
the chat input's current value. -/
def on_send_button_pressed (st : ChatState) (available_tools : List MCPTool)
    (available_model_names : List String) (chat_input_value : String)
    (now : Nat) (ev : SendEvent) : ChatState :=
  if !st.is_generating && !(pyStrip chat_input_value == "") then
    send_message st available_tools available_model_names
      (pyStrip chat_input_value) now ev
  else st

/-! ## Model change and session loading (`screens/chat.py` lines 419-483) -/

/-- Embeds `ChatScreen.change_model` (lines 452-483): verify the requested name
against the available model list (`get_models`, embedded as the parameter
`models`); when absent, notify `"Model {name} not found"` and return with
nothing changed; otherwise set `current_model`, save it as the last used
model, notify, and update and save the session's model. -/
def change_model (st : ChatState) (models : List String) (model_name : String) :
    ChatState :=
  if !(models.any (fun m => m == model_name)) then
    { st with notices := st.notices ++ ["Model " ++ model_name ++ " not found"] }
  else
    let st1 := { st with current_model := some model_name,
                         last_model_saved := some model_name,
                         notices := st.notices ++
                           ["Switched to model: " ++ model_name] }
    match st1.current_session with
    | some session =>
        let session2 := { session with model := some model_name }
        { st1 with current_session := some session2,
                   save_log := st1.save_log ++ [session2] }
    | none => st1

/-- Embeds `ChatScreen.load_session` (lines 419-445). The storage lookup
(`storage_service.load_session`, whose module is not among the shown files) is
embedded as the parameter `store`, per the spec's interface
`loadSession(id) → Session|absent`. When absent: notify
`"Session not found: {id}"` and return, everything else unchanged. When
present: install the session, clear and reload the display, and change the
model if the session names a different one. -/
def load_session (st : ChatState) (store : String → Option Session)
    (models : List String) (session_id : String) (now : Nat) : ChatState :=
  match store session_id with
  | none =>
      { st with notices := st.notices ++ ["Session not found: " ++ session_id] }
  | some session =>
      let st1 := { st with current_session := some session }
      let display2 :=
        session.messages.foldl
          (fun d m => add_message d m.role m.content now)
          (clear_messages st1.display)
      let st2 := { st1 with display := display2 }
      match session.model with
      | some m => if some m ≠ st.current_model then change_model st2 models m else st2
      | none => st2

/-! ## Helper lemmas -/

theorem update_last_message_concat (msgs : List MessageWidget)
    (w : MessageWidget) (c : String) :
    update_last_message (msgs ++ [w]) c = msgs ++ [{ w with content := c }] := by
  simp [update_last_message, List.getLast?_concat, List.dropLast_concat]

theorem add_chunk_to_last_message_concat (msgs : List MessageWidget)
    (w : MessageWidget) (c : String) :
    add_chunk_to_last_message (msgs ++ [w]) c =
      msgs ++ [{ w with content := w.content ++ c }] := by
  simp [add_chunk_to_last_message, List.getLast?_concat,
    update_last_message_concat]

theorem lastContent_concat (msgs : List MessageWidget) (w : MessageWidget) :
    lastContent (msgs ++ [w]) = some w.content := by
  simp [lastContent, List.getLast?_concat]

/-- Streaming invariant: running the chunk loop with the accumulator equal to
the last displayed message's content keeps them in lock step, and both end at
the accumulator extended by the concatenation of the chunks. -/
theorem stream_loop_concat (chunks : List String) (acc : String)
    (pre : List MessageWidget) (role : String) (ts : Nat) :
    stream_loop chunks acc (pre ++ [⟨role, acc, ts⟩]) =
      (acc ++ joinChunks chunks,
       pre ++ [⟨role, acc ++ joinChunks chunks, ts⟩]) := by
  induction chunks generalizing acc with
  | nil => simp [stream_loop, joinChunks, String.append_empty]
  | cons c cs ih =>
      by_cases hc : c = ""
      · subst hc
        have h0 : acc ++ "" = acc := String.append_empty acc
        simpa [stream_loop, joinChunks, h0] using ih acc
      · have h1 : add_chunk_to_last_message (pre ++ [⟨role, acc, ts⟩]) c =
            pre ++ [⟨role, acc ++ c, ts⟩] :=
          add_chunk_to_last_message_concat pre ⟨role, acc, ts⟩ c
        simpa [stream_loop, unified_stream_callback, hc, h1, joinChunks,
          String.append_assoc] using ih (acc ++ c)

theorem string_empty_append (s : String) : "" ++ s = s := rfl

/-- The accumulated `response_content` is the concatenation of all chunks,
whatever the display state. -/
theorem stream_loop_fst (chunks : List String) (acc : String)
    (msgs : List MessageWidget) :
    (stream_loop chunks acc msgs).1 = acc ++ joinChunks chunks := by
  induction chunks generalizing acc msgs with
  | nil => simp [stream_loop, joinChunks, String.append_empty]
  | cons c cs ih => simp [stream_loop, ih, joinChunks, String.append_assoc]

/-- Running the streaming loop from a freshly opened empty assistant message:
closed form for both the accumulated response and the display. -/
theorem stream_loop_from_empty (chunks : List String) (d : List MessageWidget)
    (now : Nat) :
    stream_loop chunks "" (add_message d "assistant" "" now) =
      (joinChunks chunks,
       d ++ [⟨"assistant", joinChunks chunks, now⟩]) := by
  have h := stream_loop_concat chunks "" d "assistant" now
  simpa [add_message, string_empty_append] using h

/-! ## Claim theorems -/

/-- C1: for every finite sequence of non-empty text chunks produced by the
generation source during one turn without tools, the streaming loop of
`generate_response` (which opens an empty assistant message and then feeds
each chunk to the unified streaming callback) accumulates a final response
equal to the concatenation of all chunks, the displayed content of the last
message ends equal to that concatenation, and after the first `i` chunks the
displayed content of the last message is the concatenation of chunks
`1..i`. -/
theorem c1_streaming_concat_and_prefix_states (chunks : List String)
    (_hne : ∀ c ∈ chunks, c ≠ "") (d : List MessageWidget) (now : Nat) :
    (stream_loop chunks "" (add_message d "assistant" "" now)).1 =
      joinChunks chunks ∧
    lastContent (stream_loop chunks "" (add_message d "assistant" "" now)).2 =
      some (joinChunks chunks) ∧
    ∀ i, i ≤ chunks.length →
      lastContent
          (stream_loop (chunks.take i) "" (add_message d "assistant" "" now)).2 =
        some (joinChunks (chunks.take i)) := by
  refine ⟨by simp [stream_loop_from_empty], ?_, ?_⟩
  · simp [stream_loop_from_empty, lastContent_concat]
  · intro i _hi
    simp [stream_loop_from_empty, lastContent_concat]

/-- Witness for C1 at the chunks of the claim, `["Hel", "lo", " world"]`: the
final accumulated response is `"Hello world"` and the displayed content after
the second chunk is `"Hello"`. -/
theorem c1_streaming_witness :
    (stream_loop ["Hel", "lo", " world"] ""
        (add_message [] "assistant" "" 0)).1 = "Hello world" ∧
    lastContent (stream_loop (["Hel", "lo", " world"].take 2) ""
        (add_message [] "assistant" "" 0)).2 = some "Hello" := by
  have h := c1_streaming_concat_and_prefix_states ["Hel", "lo", " world"]
    (by decide) [] 0
  exact ⟨h.1.trans (by decide), (h.2.2 2 (by decide)).trans (by decide)⟩

/-- C10: `MessageList.update_last_message` on an empty display list is a safe
no-op (the empty branch of the `if self.messages:` guard is taken, no indexing
occurs); on a non-empty list only the last message's content is replaced — the
earlier messages, and the last message's role and timestamp, are unchanged. -/
theorem c10_update_last_message_safe :
    (∀ c : String, update_last_message [] c = []) ∧
    (∀ (msgs : List MessageWidget) (w : MessageWidget) (c : String),
      update_last_message (msgs ++ [w]) c =
        msgs ++ [{ role := w.role, content := c, timestamp := w.timestamp }]) :=
  ⟨fun _ => rfl, fun msgs w c => update_last_message_concat msgs w c⟩

/-- C2: while the `generating` flag is true, message submission through the
input field, through the send button, and `send_message` itself are all
no-ops: the state — in particular the session transcript and its length, the
display, and the save log — is unchanged, and no generation is started. -/
theorem c2_submit_noop_while_generating (st : ChatState)
    (h : st.is_generating = true) (tools : List MCPTool) (avail : List String)
    (value message : String) (now : Nat) (ev : SendEvent) :
    on_input_submitted st tools avail value now ev = st ∧
    on_send_button_pressed st tools avail value now ev = st ∧
    send_message st tools avail message now ev = st := by
  refine ⟨?_, ?_, ?_⟩ <;>
    simp [on_input_submitted, on_send_button_pressed, send_message, h]

/-- A concrete screen state with a generation in flight. -/
def busy_state : ChatState :=
  { is_generating := true, current_model := some "llama3",
    current_session := some
      { session_id := "s1", title := "chat", model := some "llama3",
        messages := [] },
    display := [], notices := [], save_log := [], last_model_saved := none }

/-- Witness for C2: in `busy_state` a concrete submission leaves the state
untouched. -/
theorem c2_submit_noop_witness :
    on_input_submitted busy_state [] [] "hi" 0 (.ok (.streamed ["x"])) =
      busy_state ∧
    send_message busy_state [] [] "hi" 0 (.ok (.streamed ["x"])) = busy_state := by
  have h := c2_submit_noop_while_generating busy_state rfl [] [] "hi" "hi" 0
    (.ok (.streamed ["x"]))
  exact ⟨h.1, h.2.2⟩

/-- C8: a submission whose input strips to the empty string is a no-op even
when no generation is in flight — nothing is appended, persisted or started —
and a submission whose input strips to a non-empty string sends exactly the
stripped string. -/
theorem c8_blank_input_noop_and_strip (st : ChatState) (tools : List MCPTool)
    (avail : List String) (value : String) (now : Nat) (ev : SendEvent) :
    (pyStrip value = "" →
      on_input_submitted st tools avail value now ev = st ∧
      on_send_button_pressed st tools avail value now ev = st) ∧
    (st.is_generating = false → pyStrip value ≠ "" →
      on_input_submitted st tools avail value now ev =
        send_message st tools avail (pyStrip value) now ev ∧
      on_send_button_pressed st tools avail value now ev =
        send_message st tools avail (pyStrip value) now ev) := by
  constructor
  · intro h
    constructor <;> simp [on_input_submitted, on_send_button_pressed, h]
  · intro hg h
    constructor <;> simp [on_input_submitted, on_send_button_pressed, hg, h]

/-- A concrete idle screen state. -/
def idle_state : ChatState :=
  { is_generating := false, current_model := some "llama3",
    current_session := some
      { session_id := "s1", title := "chat", model := some "llama3",
        messages := [] },
    display := [], notices := [], save_log := [], last_model_saved := none }

/-- Witness for C8: a whitespace-only input is dropped in the idle state, and
an input with surrounding whitespace is sent stripped. -/
theorem c8_blank_input_witness :
    on_input_submitted idle_state [] [] "  \t\n " 0 (.ok (.streamed [])) =
      idle_state ∧
    on_input_submitted idle_state [] [] " hi " 0 (.ok (.streamed [])) =
      send_message idle_state [] [] "hi" 0 (.ok (.streamed [])) := by
  have h1 := (c8_blank_input_noop_and_strip idle_state [] [] "  \t\n " 0
    (.ok (.streamed []))).1 (by decide)
  have h2 := (c8_blank_input_noop_and_strip idle_state [] [] " hi " 0
    (.ok (.streamed []))).2 rfl (by decide)
  have hs : pyStrip " hi " = "hi" := by decide
  exact ⟨h1.1, by simpa [hs] using h2.1⟩

/-- C9: `change_model` with a model name absent from the available model list
fails atomically: the only change is the appended "not found" notice — the
current model, the persisted last-used model, the session (hence its
associated model identifier), and the save log are unchanged. -/
theorem c9_change_model_not_found (st : ChatState) (models : List String)
    (name : String) (h : models.any (fun m => m == name) = false) :
    change_model st models name =
      { st with notices := st.notices ++ ["Model " ++ name ++ " not found"] } ∧
    (change_model st models name).current_model = st.current_model ∧
    (change_model st models name).last_model_saved = st.last_model_saved ∧
    (change_model st models name).current_session = st.current_session ∧
    (change_model st models name).save_log = st.save_log := by
  refine ⟨?_, ?_, ?_, ?_, ?_⟩ <;> simp [change_model, h]

/-- Witness for C9 at a concrete absent model name. -/
theorem c9_change_model_witness :
    change_model idle_state ["llama3", "qwen3"] "gpt-oss" =
      { idle_state with notices := ["Model gpt-oss not found"] } := by
  have h := c9_change_model_not_found idle_state ["llama3", "qwen3"] "gpt-oss"
    (by decide)
  simpa [idle_state] using h.1

/-- C7: `load_session` for a session id absent from storage takes the
explicit not-found outcome: a non-fatal notice is appended and the method
returns, leaving the current session, the displayed message list, and the
current model unchanged. -/
theorem c7_load_session_absent (st : ChatState)
    (store : String → Option Session) (models : List String)
    (session_id : String) (now : Nat) (h : store session_id = none) :
    load_session st store models session_id now =
      { st with notices :=
          st.notices ++ ["Session not found: " ++ session_id] } ∧
    (load_session st store models session_id now).current_session =
      st.current_session ∧
    (load_session st store models session_id now).display = st.display ∧
    (load_session st store models session_id now).current_model =
      st.current_model := by
  refine ⟨?_, ?_, ?_, ?_⟩ <;> simp [load_session, h]

/-- Witness for C7 with an empty store. -/
theorem c7_load_session_witness :
    load_session idle_state (fun _ => none) [] "missing" 0 =
      { idle_state with notices := ["Session not found: missing"] } := by
  have h := c7_load_session_absent idle_state (fun _ => none) [] "missing" 0 rfl
  simpa [idle_state] using h.1

/-- C5 (amended): for every generate call with model `"codellama"` and a
non-empty available-tool list, the in-progress assistant message is replaced
with the compatibility-error message, `generate_response` returns without
invoking the generation source — its result does not depend on what the
source would have produced, so no generation-source output appears in the
assistant message — and the error message includes the suggested alternative
model whenever `suggest_alternative_model` finds a compatible model in the
available model list. -/
theorem c5_codellama_gate (st : ChatState) (tools : List MCPTool)
    (avail : List String) (now : Nat)
    (hm : st.current_model = some "codellama") (ht : tools ≠ []) :
    (∀ chunks chunks' : List String,
      generate_response st tools avail now (.streamed chunks) =
        generate_response st tools avail now (.streamed chunks')) ∧
    (∀ chunks : List String,
      lastContent
          (generate_response st tools avail now (.streamed chunks)).display =
        some (compat_error_message "codellama" tools.length
          (suggest_alternative_model "codellama" avail)) ∧
      (generate_response st tools avail now (.streamed chunks)).current_session =
        st.current_session ∧
      (generate_response st tools avail now (.streamed chunks)).save_log =
        st.save_log) ∧
    (∀ s, suggest_alternative_model "codellama" avail = some s →
      ∃ l r, compat_error_message "codellama" tools.length
          (suggest_alternative_model "codellama" avail) = l ++ s ++ r) := by
  have hsupp : supports_tools "codellama" = false := by decide
  have hgate : gate_blocks tools "codellama" = true := by
    simp [gate_blocks, hsupp, List.isEmpty_iff, ht]
  refine ⟨?_, ?_, ?_⟩
  · intro chunks chunks'
    simp [generate_response, hm, hgate]
  · intro chunks
    refine ⟨?_, ?_, ?_⟩ <;>
      simp [generate_response, hm, hgate, blocked_update, add_message,
        update_last_message_concat, lastContent_concat]
  · intro s hs
    refine ⟨"❌ **Model Compatibility Issue**\n\nThe model `codellama` does not support tool calling. I have "
        ++ toString tools.length
        ++ " tools available (file operations, etc.) but this model cannot use them.\n\n💡 **Suggestion**: Switch to `",
      "` or another compatible model.\n\n**Compatible models include**: qwen3:latest, llama3.1:latest, mistral:latest\n**Incompatible models**: codellama (all versions), codegemma, starcoder\n\nYou can change the model using the sidebar or try your request with a different model.",
      ?_⟩
    simp [compat_error_message, hs, String.append_assoc]

/-- A concrete idle screen state whose current model is `"codellama"`. -/
def codellama_state : ChatState :=
  { is_generating := false, current_model := some "codellama",
    current_session := some
      { session_id := "s1", title := "chat", model := some "codellama",
        messages := [] },
    display := [], notices := [], save_log := [], last_model_saved := none }

/-- A concrete MCP tool descriptor. -/
def read_file_tool : MCPTool :=
  { name := "read_file", description := "Read a file from disk" }

set_option maxRecDepth 400000 in
/-- Counterexample for C5 as stated: with model `"codellama"`, one available
tool and an available-model list containing no tool-compatible model, the
in-progress assistant message is replaced with the compatibility-error
message built with no suggestion — and that message does not include the
suggestion block at all, so no suggested alternative model is included. -/
theorem c5_counterexample :
    lastContent (generate_response codellama_state [read_file_tool]
        ["codellama:13b"] 0 (.streamed ["SOURCE OUTPUT"])).display =
      some (compat_error_message "codellama" 1 none) ∧
    ¬ ("💡 **Suggestion**".toList <:+:
        (compat_error_message "codellama" 1 none).toList) := by
  constructor
  · decide
  · decide

/-- Witness for C5's amended theorem: a concrete blocked call, with the
suggestion present because `"qwen3:latest"` is available and compatible. -/
theorem c5_codellama_gate_witness :
    lastContent (generate_response codellama_state [read_file_tool]
        ["codellama:13b", "qwen3:latest"] 0 (.streamed ["SOURCE OUTPUT"])).display =
      some (compat_error_message "codellama" 1 (some "qwen3:latest")) ∧
    ∃ l r, compat_error_message "codellama" 1
        (suggest_alternative_model "codellama" ["codellama:13b", "qwen3:latest"]) =
      l ++ "qwen3:latest" ++ r := by
  have h := c5_codellama_gate codellama_state [read_file_tool]
    ["codellama:13b", "qwen3:latest"] 0 rfl (by decide)
  have hsug : suggest_alternative_model "codellama"
      ["codellama:13b", "qwen3:latest"] = some "qwen3:latest" := by decide
  refine ⟨?_, h.2.2 "qwen3:latest" hsug⟩
  have h2 := (h.2.1 ["SOURCE OUTPUT"]).1
  simpa [hsug] using h2

/-- Closed form of a successful turn: from an idle state with a configured
model and a session, when the capability gate does not block and the stream
completes with a non-empty response, `send_message` appends the user message
and then the finished assistant message to the transcript, mirrors both on
the display, and saves the session after each of the two appends. -/
theorem send_message_success (st : ChatState) (tools : List MCPTool)
    (avail : List String) (text : String) (now : Nat) (chunks : List String)
    (model : String) (s : Session)
    (hg : st.is_generating = false) (hm : st.current_model = some model)
    (hs : st.current_session = some s)
    (hgate : gate_blocks tools model = false)
    (hne : joinChunks chunks ≠ "") :
    send_message st tools avail text now (.ok (.streamed chunks)) =
      { is_generating := false,
        current_model := some model,
        current_session := some { s with messages := s.messages ++
          [⟨"user", text, some model⟩,
           ⟨"assistant", joinChunks chunks, some model⟩] },
        display := st.display ++
          [⟨"user", text, now⟩, ⟨"assistant", joinChunks chunks, now⟩],
        notices := st.notices,
        save_log := st.save_log ++
          [{ s with messages := s.messages ++ [⟨"user", text, some model⟩] },
           { s with messages := s.messages ++
              [⟨"user", text, some model⟩,
               ⟨"assistant", joinChunks chunks, some model⟩] }],
        last_model_saved := st.last_model_saved } := by
  have hstream : stream_loop chunks ""
      (st.display ++ [⟨"user", text, now⟩, ⟨"assistant", "", now⟩]) =
      (joinChunks chunks,
       st.display ++
         [⟨"user", text, now⟩, ⟨"assistant", joinChunks chunks, now⟩]) := by
    have h := stream_loop_concat chunks ""
      (st.display ++ [⟨"user", text, now⟩]) "assistant" now
    simpa [List.append_assoc, string_empty_append] using h
  simp [send_message, hg, hs, hm, generate_response, hgate, finish_stream,
    add_message, hstream, hne, List.append_assoc]

/-- A sequence of turns: each element is the submitted user text together
with the chunks the generation source streams for it; every turn goes through
`send_message` from the state the previous turn left. -/
def run_turns (tools : List MCPTool) (avail : List String) (now : Nat) :
    ChatState → List (String × List String) → ChatState
  | st, [] => st
  | st, p :: rest =>
      run_turns tools avail now
        (send_message st tools avail p.1 now (.ok (.streamed p.2))) rest

/-- The transcript fragment a sequence of completed turns appends: user
message then assistant message, in submission order. -/
def turn_transcript (model : String) :
    List (String × List String) → List ChatMessage
  | [] => []
  | p :: rest =>
      ⟨"user", p.1, some model⟩ ::
        ⟨"assistant", joinChunks p.2, some model⟩ ::
          turn_transcript model rest

/-- C4 (amended): for every sequence of submitted user messages whose turns
complete with a non-empty streamed response, the session transcript preserves
submission order and each user message is immediately followed by exactly one
assistant message holding the finished streamed response; after each turn the
screen is idle again and the model unchanged; and within one such turn the
session is persisted on stream completion — the save log gains the snapshot
after the user append and the snapshot holding the finished assistant
message. (The amendment: when the streamed response is empty, the code's
`if self.current_session and response_content:` guard appends no assistant
message and does not save, so the adjacency only holds for turns with a
non-empty response.) -/
theorem c4_transcript_order (st : ChatState) (tools : List MCPTool)
    (avail : List String) (now : Nat) (model : String) (s : Session)
    (turns : List (String × List String))
    (hg : st.is_generating = false) (hm : st.current_model = some model)
    (hs : st.current_session = some s)
    (hgate : gate_blocks tools model = false)
    (hne : ∀ p ∈ turns, joinChunks p.2 ≠ "") :
    ((run_turns tools avail now st turns).current_session =
      some { s with messages := s.messages ++ turn_transcript model turns } ∧
     (run_turns tools avail now st turns).is_generating = false ∧
     (run_turns tools avail now st turns).current_model = some model) ∧
    ∀ text chunks, joinChunks chunks ≠ "" →
      (send_message st tools avail text now (.ok (.streamed chunks))).save_log =
        st.save_log ++
          [{ s with messages := s.messages ++ [⟨"user", text, some model⟩] },
           { s with messages := s.messages ++
              [⟨"user", text, some model⟩,
               ⟨"assistant", joinChunks chunks, some model⟩] }] := by
  constructor
  · induction turns generalizing st s with
    | nil => refine ⟨?_, ?_, ?_⟩ <;> simp [run_turns, turn_transcript, hs, hg, hm]
    | cons p rest ih =>
        have hne1 : joinChunks p.2 ≠ "" := hne p (List.mem_cons_self p rest)
        have hnerest : ∀ q ∈ rest, joinChunks q.2 ≠ "" := fun q hq =>
          hne q (List.mem_cons_of_mem p hq)
        have hstep := send_message_success st tools avail p.1 now p.2 model s
          hg hm hs hgate hne1
        have hrec := ih (send_message st tools avail p.1 now (.ok (.streamed p.2)))
          { s with messages := s.messages ++
            [⟨"user", p.1, some model⟩,
             ⟨"assistant", joinChunks p.2, some model⟩] }
          (by rw [hstep]) (by rw [hstep]) (by rw [hstep]) hnerest
        refine ⟨?_, ?_, ?_⟩
        · have h1 := hrec.1
          simp only [run_turns]
          rw [h1]
          simp [turn_transcript, List.append_assoc]
        · have h2 := hrec.2.1
          simp only [run_turns]
          exact h2
        · have h3 := hrec.2.2
          simp only [run_turns]
          exact h3
  · intro text chunks hne1
    have h := send_message_success st tools avail text now chunks model s
      hg hm hs hgate hne1
    rw [h]

/-- Counterexample for C4 as stated: a turn that completes with an empty
streamed response. The user message is appended but no assistant message
follows it in the transcript, and the only persisted snapshot is the one
after the user append — nothing is persisted on stream completion. -/
theorem c4_counterexample :
    (send_message idle_state [] [] "hi" 0 (.ok (.streamed []))).current_session =
      some { session_id := "s1", title := "chat", model := some "llama3",
             messages :=
               [{ role := "user", content := "hi", model := some "llama3" }] } ∧
    (send_message idle_state [] [] "hi" 0 (.ok (.streamed []))).save_log =
      [{ session_id := "s1", title := "chat", model := some "llama3",
         messages :=
           [{ role := "user", content := "hi", model := some "llama3" }] }] := by
  constructor <;> decide

/-- Witness for C4's amended theorem: two concrete completed turns append
user/assistant pairs in submission order. -/
theorem c4_transcript_witness :
    (run_turns [] [] 0 idle_state
        [("hi", ["Hel", "lo"]), ("bye", ["ok"])]).current_session =
      some { session_id := "s1", title := "chat", model := some "llama3",
             messages :=
               [⟨"user", "hi", some "llama3"⟩,
                ⟨"assistant", "Hello", some "llama3"⟩,
                ⟨"user", "bye", some "llama3"⟩,
                ⟨"assistant", "ok", some "llama3"⟩] } := by
  have h := c4_transcript_order idle_state [] [] 0 "llama3"
    { session_id := "s1", title := "chat", model := some "llama3",
      messages := [] }
    [("hi", ["Hel", "lo"]), ("bye", ["ok"])] rfl rfl rfl (by decide) (by decide)
  exact h.1.1.trans (by decide)

/-- The function `generate_response` appends only assistant-role messages (possibly none)
to the session transcript, whatever the event. -/
theorem generate_response_appends_assistant (st : ChatState)
    (tools : List MCPTool) (avail : List String) (now : Nat) (ev : GenEvent)
    (s1 : Session) (hs : st.current_session = some s1) :
    ∃ tail : List ChatMessage,
      (generate_response st tools avail now ev).current_session =
        some { s1 with messages := s1.messages ++ tail } ∧
      ∀ m ∈ tail, m.role = "assistant" := by
  obtain ⟨sid, stitle, smodel, smsgs⟩ := s1
  cases hmod : st.current_model with
  | none => exact ⟨[], by simp [generate_response, hmod, hs], by simp⟩
  | some model =>
      cases ev with
      | composeError e =>
          exact ⟨[], by simp [generate_response, hmod, hs], by simp⟩
      | streamError pcs e =>
          by_cases hgate : gate_blocks tools model = true
          · exact ⟨[], by simp [generate_response, hmod, hs, hgate,
              blocked_update], by simp⟩
          · exact ⟨[], by simp [generate_response, hmod, hs, hgate], by simp⟩
      | streamed chunks =>
          by_cases hgate : gate_blocks tools model = true
          · exact ⟨[], by simp [generate_response, hmod, hs, hgate,
              blocked_update], by simp⟩
          · by_cases hr : joinChunks chunks = ""
            · refine ⟨[], ?_, by simp⟩
              simp [generate_response, hmod, hs, hgate, finish_stream,
                stream_loop_fst, string_empty_append, hr]
            · refine ⟨[⟨"assistant", joinChunks chunks, some model⟩], ?_, by simp⟩
              simp [generate_response, hmod, hs, hgate, finish_stream,
                stream_loop_fst, string_empty_append, hr]
      | persistError chunks e =>
          by_cases hgate : gate_blocks tools model = true
          · exact ⟨[], by simp [generate_response, hmod, hs, hgate,
              blocked_update], by simp⟩
          · by_cases hr : joinChunks chunks = ""
            · refine ⟨[], ?_, by simp⟩
              simp [generate_response, hmod, hs, hgate, finish_stream,
                stream_loop_fst, string_empty_append, hr]
            · refine ⟨[⟨"assistant", joinChunks chunks, some model⟩], ?_, by simp⟩
              simp [generate_response, hmod, hs, hgate, finish_stream,
                stream_loop_fst, string_empty_append, hr]

/-- The session after the user message append of `send_message`
(`screens/chat.py` lines 212-214). -/
def user_appended (s1 : Session) (msg : String) (model : Option String) :
    Session :=
  { s1 with messages := s1.messages ++ [⟨"user", msg, model⟩] }

/-- The screen state at the point `send_message` hands over to
`generate_response`: flag raised, user message displayed, session appended
and saved. -/
def sending_state (st : ChatState) (msg : String) (now : Nat) (s2 : Session) :
    ChatState :=
  { st with is_generating := true,
            display := add_message st.display "user" msg now,
            current_session := some s2,
            save_log := st.save_log ++ [s2] }

/-- The function `send_message` appends only user- and assistant-role messages (possibly
none) to the session transcript, whatever the events. -/
theorem send_message_appends_user_assistant (st : ChatState)
    (tools : List MCPTool) (avail : List String) (msg : String) (now : Nat)
    (ev : SendEvent) (s1 : Session) (hs : st.current_session = some s1) :
    ∃ tail : List ChatMessage,
      (send_message st tools avail msg now ev).current_session =
        some { s1 with messages := s1.messages ++ tail } ∧
      ∀ m ∈ tail, m.role = "user" ∨ m.role = "assistant" := by
  by_cases hg : st.is_generating = true
  · exact ⟨[], by simp [send_message, hg, hs], by simp⟩
  · cases ev with
    | saveError e =>
        refine ⟨[⟨"user", msg, st.current_model⟩], ?_, by simp⟩
        simp [send_message, hg, hs]
    | ok gen =>
        obtain ⟨tail, htail, hroles⟩ :=
          generate_response_appends_assistant
            (sending_state st msg now (user_appended s1 msg st.current_model))
            tools avail now gen
            (user_appended s1 msg st.current_model) rfl
        refine ⟨⟨"user", msg, st.current_model⟩ :: tail, ?_, ?_⟩
        · have hgoal : (send_message st tools avail msg now (.ok gen)).current_session =
              (generate_response
                (sending_state st msg now (user_appended s1 msg st.current_model))
                tools avail now gen).current_session := by
            simp [send_message, hg, hs, sending_state, user_appended]
          rw [hgoal, htail]
          simp [user_appended, List.append_assoc]
        · intro m hm
          rcases List.mem_cons.mp hm with h | h
          · exact Or.inl (by rw [h])
          · exact Or.inr (hroles m h)

/-- C3: in every generate call, the Prompt Composer is invoked exactly when no
system message exists in the transcript-derived prompt; when invoked, its
result is inserted at position 0 of the message sequence, and this is the only
insertion (otherwise the derived messages are passed unchanged); and no turn
ever adds a system-role message to the session transcript — `send_message`
leaves the presence of system messages in the transcript-derived prompt
unchanged — so over any sequence of generate calls within a session the
directive is composed and inserted afresh per call, at most once each time,
always at position 0. -/
theorem c3_system_prompt_once
    (compose : String → List MCPTool → List PromptMsg → String)
    (session_messages : List ChatMessage) (message : String)
    (tools : List MCPTool) :
    ((build_prompt compose session_messages message tools).2 = true ↔
      has_system_message (to_ollama session_messages) = false) ∧
    ((build_prompt compose session_messages message tools).2 = true →
      (build_prompt compose session_messages message tools).1 =
        ⟨"system", compose message tools (to_ollama session_messages)⟩ ::
          to_ollama session_messages) ∧
    ((build_prompt compose session_messages message tools).2 = false →
      (build_prompt compose session_messages message tools).1 =
        to_ollama session_messages) ∧
    ∀ (st : ChatState) (tools2 : List MCPTool) (avail : List String)
      (msg2 : String) (now : Nat) (ev : SendEvent) (s1 s2 : Session),
      st.current_session = some s1 →
      (send_message st tools2 avail msg2 now ev).current_session = some s2 →
      has_system_message (to_ollama s2.messages) =
        has_system_message (to_ollama s1.messages) := by
  refine ⟨?_, ?_, ?_, ?_⟩
  · by_cases h : has_system_message (to_ollama session_messages) <;>
      simp [build_prompt, h]
  · by_cases h : has_system_message (to_ollama session_messages) <;>
      simp [build_prompt, h]
  · by_cases h : has_system_message (to_ollama session_messages) <;>
      simp [build_prompt, h]
  · intro st tools2 avail msg2 now ev s1 s2 hs1 hs2
    obtain ⟨tail, htail, hroles⟩ :=
      send_message_appends_user_assistant st tools2 avail msg2 now ev s1 hs1
    rw [hs2] at htail
    obtain rfl : s2 = { s1 with messages := s1.messages ++ tail } :=
      Option.some.inj htail
    have hnone : ∀ m ∈ tail, (m.role == "system") = false := by
      intro m hm
      rcases hroles m hm with h | h <;> simp [h]
    simp only [to_ollama, has_system_message, List.map_append, List.any_append]
    have : (List.map (fun m => ({ role := m.role, content := m.content } : PromptMsg)) tail).any
        (fun m => m.role == "system") = false := by
      simp only [List.any_eq_false, List.mem_map]
      rintro pm ⟨m, hm, rfl⟩
      simpa using hnone m hm
    simp [this]

/-- Witness for C3: with a concrete composer, a transcript without a system
message gets the composed directive inserted at position 0, and a transcript
that already has a system message is passed through unchanged. -/
theorem c3_system_prompt_witness :
    (build_prompt (fun _ _ _ => "SYS") [] "hi" []).1 =
      [{ role := "system", content := "SYS" }] ∧
    (build_prompt (fun _ _ _ => "SYS")
        [⟨"system", "S0", none⟩] "hi" []).1 =
      [{ role := "system", content := "S0" }] := by
  have h1 := c3_system_prompt_once (fun _ _ _ => "SYS") [] "hi" []
  have h2 := c3_system_prompt_once (fun _ _ _ => "SYS")
    [⟨"system", "S0", none⟩] "hi" []
  exact ⟨(h1.2.1 (by decide)).trans (by decide),
    (h2.2.2.1 (by decide)).trans (by decide)⟩

/-- The error text of a caught failure is visible to the user: either an
assistant display message `"Error: {e}"` (the `except` clause of
`generate_response`, lines 363-366) or a notification `"Error: {e}"` (the
`except` clause of `send_message`, lines 221-223). -/
def error_rendered (st : ChatState) (e : String) : Prop :=
  (∃ m ∈ st.display, m.role = "assistant" ∧ m.content = "Error: " ++ e) ∨
    ("Error: " ++ e) ∈ st.notices

/-- C6: every failure raised during prompt composition, streaming, or
persistence within a turn started from an idle screen is caught — the embedded
turn is a total function, nothing propagates — an assistant-visible message
containing the error text is rendered, and the `generating` flag is false
after the turn in all cases: success, early return, or failure. (Streaming
and stream-completion persistence failures presuppose the capability gate did
not block the turn, since a blocked turn never reaches the stream.) -/
theorem c6_failures_caught_flag_reset (st : ChatState) (tools : List MCPTool)
    (avail : List String) (msg : String) (now : Nat) (model : String)
    (hg : st.is_generating = false) (hm : st.current_model = some model) :
    (∀ ev, (send_message st tools avail msg now ev).is_generating = false) ∧
    (∀ e, error_rendered (send_message st tools avail msg now (.saveError e)) e) ∧
    (∀ e, error_rendered
      (send_message st tools avail msg now (.ok (.composeError e))) e) ∧
    (gate_blocks tools model = false →
      (∀ partialChunks e, error_rendered
        (send_message st tools avail msg now
          (.ok (.streamError partialChunks e))) e) ∧
      (∀ chunks e, error_rendered
        (send_message st tools avail msg now
          (.ok (.persistError chunks e))) e)) := by
  refine ⟨?_, ?_, ?_, ?_⟩
  · intro ev
    cases ev with
    | saveError e =>
        cases hcs : st.current_session <;> simp [send_message, hg, hcs]
    | ok gen => simp [send_message, hg]
  · intro e
    cases hcs : st.current_session <;>
      exact Or.inr (by simp [send_message, hg, hcs])
  · intro e
    refine Or.inl ⟨⟨"assistant", "Error: " ++ e, now⟩, ?_, rfl, rfl⟩
    cases hcs : st.current_session <;>
      simp [send_message, hg, hcs, generate_response, hm, add_message]
  · intro hgate
    constructor
    · intro partialChunks e
      refine Or.inl ⟨⟨"assistant", "Error: " ++ e, now⟩, ?_, rfl, rfl⟩
      cases hcs : st.current_session <;>
        simp [send_message, hg, hcs, generate_response, hm, hgate, add_message]
    · intro chunks e
      refine Or.inl ⟨⟨"assistant", "Error: " ++ e, now⟩, ?_, rfl, rfl⟩
      cases hcs : st.current_session <;>
        simp [send_message, hg, hcs, generate_response, hm, hgate,
          finish_stream, add_message]

/-- Witness for C6: in the concrete idle state, a mid-stream failure leaves
the flag false and a composition failure renders its error text. -/
theorem c6_failures_witness :
    (send_message idle_state [] [] "hi" 0
      (.ok (.streamError ["He"] "boom"))).is_generating = false ∧
    error_rendered
      (send_message idle_state [] [] "hi" 0 (.ok (.composeError "boom"))) "boom" := by
  have h := c6_failures_caught_flag_reset idle_state [] [] "hi" 0 "llama3"
    rfl rfl
  exact ⟨h.1 (.ok (.streamError ["He"] "boom")), h.2.2.1 "boom"⟩

end LitTui
